import Mathlib

/-!
Shallow embedding of `src/app.py` (YouTube Thumbnail Analyzer).

The program is a single-run pipeline: two stage-1 analyses of one image
(Google Vision feature detection in `analyze_with_vision`, an OpenAI
multimodal description in `analyze_with_openai`), followed by a synthesis
stage (`generate_prompt`) that `main` invokes only under the condition
`if vision_results and openai_description:`.

External backends are modelled as `Except String _` outcomes supplied by an
environment (`Env`): `.ok` carries the raw backend response, `.error` the
message of the Python exception the backend raised.  Each embedded function
returns its Python return value together with the list of observable events
it performs (backend calls, `st.error` messages, displayed output), so that
call counts and ordering are provable facts.  Scores, confidences and color
channels (floats in the source) are modelled as rationals.
-/

namespace ImageAnalysis

/-! ### Raw Google Vision backend responses (protobuf shapes used by the code) -/

/-- The protobuf likelihood enum used by Vision face annotations. -/
inductive Likelihood
  | UNKNOWN
  | VERY_UNLIKELY
  | UNLIKELY
  | POSSIBLE
  | LIKELY
  | VERY_LIKELY
deriving DecidableEq

/-- The `.name` attribute of a protobuf enum value, as read at
`app.py` lines 65-68 (`face.joy_likelihood.name` etc.). -/
def Likelihood.name : Likelihood → String
  | .UNKNOWN => "UNKNOWN"
  | .VERY_UNLIKELY => "VERY_UNLIKELY"
  | .UNLIKELY => "UNLIKELY"
  | .POSSIBLE => "POSSIBLE"
  | .LIKELY => "LIKELY"
  | .VERY_LIKELY => "VERY_LIKELY"

/-- An RGB color as in the Vision `image_properties` response (float channels). -/
structure RGB where
  red : ℚ
  green : ℚ
  blue : ℚ
deriving DecidableEq

/-- One entry of `label_detection.label_annotations`. -/
structure RawLabel where
  description : String
  score : ℚ
deriving DecidableEq

/-- One entry of `text_detection.text_annotations`; `confidence` is optional,
mirroring the `hasattr(text, 'confidence')` check at line 63. -/
structure RawText where
  description : String
  confidence : Option ℚ
deriving DecidableEq

/-- One entry of `face_detection.face_annotations`. -/
structure RawFace where
  joy_likelihood : Likelihood
  sorrow_likelihood : Likelihood
  anger_likelihood : Likelihood
  surprise_likelihood : Likelihood
deriving DecidableEq

/-- One entry of `logo_detection.logo_annotations`. -/
structure RawLogo where
  description : String
deriving DecidableEq

/-- One entry of `image_properties_annotation.dominant_colors.colors`. -/
structure RawColor where
  color : RGB
  score : ℚ
  pixel_fraction : ℚ
deriving DecidableEq

/-- The combined raw response of the five Vision detection calls issued at
`app.py` lines 53-57. -/
structure VisionRaw where
  label_annotations : List RawLabel
  text_annotations : List RawText
  face_annotations : List RawFace
  logo_annotations : List RawLogo
  dominant_colors : List RawColor
deriving DecidableEq

/-! ### Normalized results (the `results` dict of `analyze_with_vision`) -/

/-- Normalized label entry: `{"description": ..., "score": ...}`. -/
structure NLabel where
  description : String
  score : ℚ
deriving DecidableEq

/-- Normalized text entry: `{"description": ..., "confidence": ...}`. -/
structure NText where
  description : String
  confidence : Option ℚ
deriving DecidableEq

/-- Normalized face entry: the four likelihood *names* stored as strings
(`face.joy_likelihood.name`, ...). -/
structure NFace where
  joy : String
  sorrow : String
  anger : String
  surprise : String
deriving DecidableEq

/-- Normalized logo entry. -/
structure NLogo where
  description : String
deriving DecidableEq

/-- Normalized dominant-color entry. -/
structure NColor where
  color : RGB
  score : ℚ
  pixel_fraction : ℚ
deriving DecidableEq

/-- The `results` dict built at `app.py` lines 60-77. -/
structure VisionResults where
  labels : List NLabel
  text : List NText
  faces : List NFace
  logos : List NLogo
  colors : List NColor
deriving DecidableEq

/-- The normalization performed at `app.py` lines 60-77: map all labels,
take `[:1]` of the text annotations, map all faces to likelihood names,
map all logos, take `[:5]` of the dominant colors. -/
def extractResults (raw : VisionRaw) : VisionResults where
  labels := raw.label_annotations.map (fun l => ⟨l.description, l.score⟩)
  text := (raw.text_annotations.take 1).map (fun t => ⟨t.description, t.confidence⟩)
  faces := raw.face_annotations.map (fun f =>
    ⟨f.joy_likelihood.name, f.sorrow_likelihood.name,
     f.anger_likelihood.name, f.surprise_likelihood.name⟩)
  logos := raw.logo_annotations.map (fun l => ⟨l.description⟩)
  colors := (raw.dominant_colors.take 5).map (fun c =>
    ⟨c.color, c.score, c.pixel_fraction⟩)

/-! ### OpenAI backend responses and requests -/

/-- A chat-completions response: the `message.content` of each choice. -/
structure OpenAIResponse where
  choices : List String
deriving DecidableEq

/-- The single request issued by `analyze_with_openai` (lines 93-110). -/
structure OpenAIRequest where
  model : String
  instruction : String
  image_url : String
  max_tokens : Nat
deriving DecidableEq

/-- The fixed instruction string sent at `app.py` line 99. -/
def openaiInstructionText : String :=
  "Analyze this YouTube thumbnail. Describe what you see in detail."

/-- The request built by `analyze_with_openai` for a given base64 image. -/
def openaiRequestOf (base64_image : String) : OpenAIRequest where
  model := "gpt-4-vision-preview"
  instruction := openaiInstructionText
  image_url := "data:image/jpeg;base64," ++ base64_image
  max_tokens := 500

/-- The `input_data` dict built at `app.py` lines 120-123. -/
structure InputData where
  vision_analysis : Option VisionResults
  openai_description : Option String
deriving DecidableEq

/-- Building `input_data` (lines 120-123): a pure record of its two inputs. -/
def buildInputData (v : Option VisionResults) (d : Option String) : InputData :=
  ⟨v, d⟩

/-! ### Observable events of one run -/

/-- Observable events: backend calls, `st.error` messages, displayed output,
and the artificial delay. -/
inductive Event
  | visionCall
  | openaiCall (req : OpenAIRequest)
  | synthCall (data : InputData)
  | errorShown (msg : String)
  | jsonShown (res : Option VisionResults)
  | textShown (txt : Option String)
  | markdownShown (txt : String)
  | downloadOffered (txt : String)
  | sleep (secs : Nat)
deriving DecidableEq

/-- Whether an event is the feature-detection backend call. -/
def Event.isVisionCall : Event → Bool
  | .visionCall => true
  | _ => false

/-- Whether an event is the multimodal-description backend call. -/
def Event.isOpenaiCall : Event → Bool
  | .openaiCall _ => true
  | _ => false

/-- Whether an event is the synthesis backend call. -/
def Event.isSynthCall : Event → Bool
  | .synthCall _ => true
  | _ => false

/-- Number of feature-detection backend calls in a trace. -/
def countVisionCalls (t : List Event) : Nat := t.countP Event.isVisionCall

/-- Number of multimodal-description backend calls in a trace. -/
def countOpenaiCalls (t : List Event) : Nat := t.countP Event.isOpenaiCall

/-- Number of synthesis backend calls in a trace. -/
def countSynthCalls (t : List Event) : Nat := t.countP Event.isSynthCall

/-! ### The three adapters -/

/-- The message of `st.error` at `app.py` line 82. -/
def visionErrorMsg (e : String) : String :=
  "Error analyzing image with Google Vision API: " ++ e

/-- The message of `st.error` at `app.py` line 113. -/
def openaiErrorMsg (e : String) : String :=
  "Error analyzing image with OpenAI: " ++ e

/-- The message of `st.error` at `app.py` line 152. -/
def genErrorMsg (e : String) : String :=
  "Error generating prompt: " ++ e

/-- Message of the Python IndexError raised by `response.choices[0]` on an
empty choice list. -/
def indexErrorText : String := "list index out of range"

/-- `analyze_with_vision` (lines 48-83): on a successful backend response it
returns the normalized `results` dict; any exception is caught, shown via
`st.error`, and `None` is returned.  The five per-category detection calls
are modelled as one logical backend call settling to one combined outcome. -/
def analyze_with_vision (backend : Except String VisionRaw) :
    Option VisionResults × List Event :=
  match backend with
  | .ok raw => (some (extractResults raw), [Event.visionCall])
  | .error e => (none, [Event.visionCall, Event.errorShown (visionErrorMsg e)])

/-- `analyze_with_openai` (lines 90-114): issues one chat-completions request
carrying the base64 image and the fixed instruction, returns
`response.choices[0].message.content` verbatim; any exception (including the
IndexError on an empty choice list) is caught, shown, and `None` returned. -/
def analyze_with_openai (base64_image : String)
    (backend : Except String OpenAIResponse) : Option String × List Event :=
  match backend with
  | .error e =>
      (none, [Event.openaiCall (openaiRequestOf base64_image),
              Event.errorShown (openaiErrorMsg e)])
  | .ok resp =>
      match resp.choices with
      | [] =>
          (none, [Event.openaiCall (openaiRequestOf base64_image),
                  Event.errorShown (openaiErrorMsg indexErrorText)])
      | c :: _ =>
          (some c, [Event.openaiCall (openaiRequestOf base64_image)])

/-- `generate_prompt` (lines 117-153): builds `input_data` from both stage-1
results, issues one chat-completions request, returns the first choice
verbatim; any exception is caught, shown, and `None` returned. -/
def generate_prompt (v : Option VisionResults) (d : Option String)
    (backend : Except String OpenAIResponse) : Option String × List Event :=
  match backend with
  | .error e =>
      (none, [Event.synthCall (buildInputData v d),
              Event.errorShown (genErrorMsg e)])
  | .ok resp =>
      match resp.choices with
      | [] =>
          (none, [Event.synthCall (buildInputData v d),
                  Event.errorShown (genErrorMsg indexErrorText)])
      | c :: _ =>
          (some c, [Event.synthCall (buildInputData v d)])

/-! ### base64 encoding (`encode_image`, lines 86-87) -/

/-- The standard base64 alphabet. -/
def b64Alphabet : List Char :=
  ("ABCDEFGHIJKLMNOPQRSTUVWXYZabcdefghijklmnopqrstuvwxyz0123456789+/").toList

/-- The base64 digit for a sextet value. -/
def sextetChar (n : Nat) : Char := b64Alphabet.getD n ('?')

/-- Linear scan returning the index of a character in a list. -/
def findIdx : List Char → Nat → Char → Option Nat
  | [], _, _ => none
  | c :: cs, i, ch => if c = ch then some i else findIdx cs (i + 1) ch

/-- The sextet value of a base64 digit, `none` for characters outside the
alphabet. -/
def charSextet (ch : Char) : Option Nat := findIdx b64Alphabet 0 ch

/-- RFC 4648 base64 encoding of a byte list, three bytes at a time with
`=` padding, as performed by Python `base64.b64encode`. -/
def b64encode : List Nat → List Char
  | [] => []
  | [a] => [sextetChar (a / 4), sextetChar (a % 4 * 16), '=', '=']
  | [a, b] => [sextetChar (a / 4), sextetChar (a % 4 * 16 + b / 16),
               sextetChar (b % 16 * 4), '=']
  | a :: b :: c :: rest =>
      sextetChar (a / 4) :: sextetChar (a % 4 * 16 + b / 16) ::
      sextetChar (b % 16 * 4 + c / 64) :: sextetChar (c % 64) :: b64encode rest

/-- `encode_image` (lines 86-87): base64-encode the image bytes and decode the
ASCII result to text. -/
def encode_image (image_bytes : List Nat) : String :=
  String.mk (b64encode image_bytes)

/-- base64 decoding: inverse of `b64encode`, `none` on malformed input. -/
def b64decode : List Char → Option (List Nat)
  | [] => some []
  | w :: x :: y :: z :: rest =>
      if y = '=' then
        match charSextet w, charSextet x with
        | some a, some b =>
            if z = '=' ∧ rest = [] then some [a * 4 + b / 16] else none
        | _, _ => none
      else if z = '=' then
        match charSextet w, charSextet x, charSextet y with
        | some a, some b, some c =>
            if rest = [] then some [a * 4 + b / 16, b % 16 * 16 + c / 4]
            else none
        | _, _, _ => none
      else
        match charSextet w, charSextet x, charSextet y, charSextet z,
              b64decode rest with
        | some a, some b, some c, some d, some tail =>
            some ((a * 4 + b / 16) :: (b % 16 * 16 + c / 4) :: (c % 4 * 64 + d) :: tail)
        | _, _, _, _, _ => none
  | _ => none

/-! ### The orchestrator (`main`, lines 156-212) -/

/-- The environment of one run with an uploaded image: whether
`setup_credentials` produced a Vision client, the settled outcome of each
backend, and the image bytes after the PIL round trip (`img_byte_arr`). -/
structure Env where
  vision_client : Bool
  visionBackend : Except String VisionRaw
  openaiBackend : Except String OpenAIResponse
  synthBackend : Except String OpenAIResponse
  imageBytes : List Nat

/-- Observable outcome of one run: the event trace and the final values of
the three result variables of `main`. -/
structure RunResult where
  trace : List Event
  vision_results : Option VisionResults
  openai_description : Option String
  detailed_prompt : Option String
deriving DecidableEq

/-- The message of `st.error` at `app.py` line 212. -/
def clientErrorMsg : String :=
  "Google Vision API client not initialized. Please check your credentials."

/-- Python truthiness of an optional string: `None` and `""` are falsy. -/
def pyTruthyStr : Option String → Bool
  | none => false
  | some s => !(s == "")

/-- Python truthiness of the optional `results` dict: `None` is falsy, the
dict built by `analyze_with_vision` always has five keys hence is truthy. -/
def pyTruthyResults : Option VisionResults → Bool
  | none => false
  | some _ => true

/-- Events after `generate_prompt` returns (lines 201-210): the prompt is
rendered and offered for download only if truthy. -/
def promptTailEvents : Option String → List Event
  | none => []
  | some p =>
      if p == "" then []
      else [Event.markdownShown p, Event.downloadOffered p]

/-- `main` (lines 156-212) for a run with an uploaded image.  When the Vision
client exists, both stage-1 adapters are called in sequence, their raw
outputs are displayed, and synthesis runs only under
`if vision_results and openai_description:` (line 196), preceded by
`time.sleep(1)`; the generated prompt is rendered and offered for download
only if truthy (line 201).  When the client is absent, only an error is
shown and neither stage-1 adapter runs (lines 180, 211-212). -/
def mainRun (env : Env) : RunResult :=
  if env.vision_client then
    let vr := analyze_with_vision env.visionBackend
    let od := analyze_with_openai (encode_image env.imageBytes) env.openaiBackend
    if pyTruthyResults vr.1 && pyTruthyStr od.1 then
      let dp := generate_prompt vr.1 od.1 env.synthBackend
      { trace := vr.2 ++ od.2 ++
          ([Event.jsonShown vr.1, Event.textShown od.1] ++ [Event.sleep 1] ++
           dp.2 ++ promptTailEvents dp.1)
        vision_results := vr.1
        openai_description := od.1
        detailed_prompt := dp.1 }
    else
      { trace := vr.2 ++ od.2 ++ [Event.jsonShown vr.1, Event.textShown od.1]
        vision_results := vr.1
        openai_description := od.1
        detailed_prompt := none }
  else
    { trace := [Event.errorShown clientErrorMsg]
      vision_results := none
      openai_description := none
      detailed_prompt := none }

/-! ### Predicates used by the claims -/

/-- A normalized dominant-color list sorted by non-increasing score. -/
def sortedByScoreDesc (l : List NColor) : Prop :=
  List.Chain' (fun a b => b.score ≤ a.score) l

/-- A raw dominant-color list sorted by non-increasing score. -/
def rawSortedByScoreDesc (l : List RawColor) : Prop :=
  List.Chain' (fun a b => b.score ≤ a.score) l

/-- The fixed ordinal set of likelihood category names. -/
def likelihoodNames : List String :=
  ["UNKNOWN", "VERY_UNLIKELY", "UNLIKELY", "POSSIBLE", "LIKELY", "VERY_LIKELY"]

/-- A score or confidence value within its declared bounds. -/
def scoreOk (q : ℚ) : Prop := 0 ≤ q ∧ q ≤ 1

/-- A color channel value within its declared bounds. -/
def channelOk (q : ℚ) : Prop := 0 ≤ q ∧ q ≤ 255

/-- The bounds invariant of a normalized bundle: label and color scores and
text confidences in [0,1], channels in [0,255], likelihood names drawn from
the fixed ordinal set. -/
def resultsBoundsOk (res : VisionResults) : Prop :=
  (∀ l ∈ res.labels, scoreOk l.score) ∧
  (∀ t ∈ res.text, ∀ c, t.confidence = some c → scoreOk c) ∧
  (∀ f ∈ res.faces, f.joy ∈ likelihoodNames ∧ f.sorrow ∈ likelihoodNames ∧
    f.anger ∈ likelihoodNames ∧ f.surprise ∈ likelihoodNames) ∧
  (∀ c ∈ res.colors, scoreOk c.score ∧ channelOk c.color.red ∧
    channelOk c.color.green ∧ channelOk c.color.blue)

/-- The corresponding bounds on a raw backend response. -/
def rawBoundsOk (raw : VisionRaw) : Prop :=
  (∀ l ∈ raw.label_annotations, scoreOk l.score) ∧
  (∀ t ∈ raw.text_annotations, ∀ c, t.confidence = some c → scoreOk c) ∧
  (∀ c ∈ raw.dominant_colors, scoreOk c.score ∧ channelOk c.color.red ∧
    channelOk c.color.green ∧ channelOk c.color.blue)

/-! ### Concrete sample data for counterexamples and witnesses -/

/-- A Vision response with no detections in any category. -/
def emptyVisionRaw : VisionRaw := ⟨[], [], [], [], []⟩

/-- Run where feature detection succeeds and the description backend fails. -/
def envC1 : Env where
  vision_client := true
  visionBackend := Except.ok emptyVisionRaw
  openaiBackend := Except.error ("connection refused")
  synthBackend := Except.ok ⟨["synthesized report"]⟩
  imageBytes := []

/-- Run where both stage-1 backends fail and both results are absent. -/
def envC2w : Env where
  vision_client := true
  visionBackend := Except.error ("service unavailable")
  openaiBackend := Except.error ("invalid api key")
  synthBackend := Except.ok ⟨["unused report"]⟩
  imageBytes := []

/-- Run where the Vision client failed to construct while the description
backend would have succeeded. -/
def envC3 : Env where
  vision_client := false
  visionBackend := Except.ok emptyVisionRaw
  openaiBackend := Except.ok ⟨["a cat on a couch"]⟩
  synthBackend := Except.ok ⟨["report text"]⟩
  imageBytes := []

/-- Fully successful run. -/
def envC3w : Env where
  vision_client := true
  visionBackend := Except.ok emptyVisionRaw
  openaiBackend := Except.ok ⟨["a detailed description"]⟩
  synthBackend := Except.ok ⟨["a structured report"]⟩
  imageBytes := [10, 20, 30]

/-- Run in which both stage-1 backends raise exceptions. -/
def envC8w : Env where
  vision_client := true
  visionBackend := Except.error ("deadline exceeded")
  openaiBackend := Except.error ("rate limited")
  synthBackend := Except.error ("unused backend")
  imageBytes := [1, 2]

/-- Vision response whose dominant colors arrive in ascending score order. -/
def c4Raw : VisionRaw :=
  ⟨[], [], [], [], [⟨⟨0, 0, 0⟩, 0, 0⟩, ⟨⟨0, 0, 0⟩, 1, 0⟩]⟩

/-- Vision response whose dominant colors arrive in descending score order. -/
def c4SortedRaw : VisionRaw :=
  ⟨[], [], [], [], [⟨⟨5, 5, 5⟩, 1, 0⟩, ⟨⟨9, 9, 9⟩, 0, 0⟩]⟩

/-- Vision response with a full-text block followed by a per-word
sub-annotation. -/
def c5Raw : VisionRaw :=
  ⟨[], [⟨"FULL TEXT", none⟩, ⟨"word", none⟩], [], [], []⟩

/-- Vision response carrying an out-of-bounds label score. -/
def c6Raw : VisionRaw := ⟨[⟨"cat", 2⟩], [], [], [], []⟩

/-- Vision response with every numeric field within bounds. -/
def c6GoodRaw : VisionRaw :=
  ⟨[⟨"cat", 1⟩], [⟨"HELLO", none⟩],
   [⟨Likelihood.LIKELY, Likelihood.UNLIKELY, Likelihood.POSSIBLE,
     Likelihood.VERY_LIKELY⟩],
   [⟨"brand"⟩], [⟨⟨255, 0, 10⟩, 1, 0⟩]⟩

/-! ### Helper lemmas: base64 -/

/-- Decoding a base64 digit returns its sextet value. -/
theorem charSextet_sextetChar : ∀ n, n < 64 → charSextet (sextetChar n) = some n := by
  decide

/-- No base64 digit is the padding character. -/
theorem sextetChar_ne_pad : ∀ n, n < 64 → ¬ (sextetChar n = '=') := by
  decide

/-- Round trip: decoding the encoding of any byte list recovers it. -/
theorem b64decode_b64encode :
    ∀ (l : List Nat), (∀ x ∈ l, x < 256) → b64decode (b64encode l) = some l := by
  intro l
  induction l using b64encode.induct with
  | case1 =>
      intro _
      rfl
  | case2 a =>
      intro h
      have ha : a < 256 := h a (by simp)
      have h1 : a / 4 < 64 := by omega
      have h2 : a % 4 * 16 < 64 := by omega
      simp [b64encode, b64decode, charSextet_sextetChar _ h1,
            charSextet_sextetChar _ h2]
      omega
  | case3 a b =>
      intro h
      have ha : a < 256 := h a (by simp)
      have hb : b < 256 := h b (by simp)
      have h1 : a / 4 < 64 := by omega
      have h2 : a % 4 * 16 + b / 16 < 64 := by omega
      have h3 : b % 16 * 4 < 64 := by omega
      simp [b64encode, b64decode, sextetChar_ne_pad _ h3,
            charSextet_sextetChar _ h1, charSextet_sextetChar _ h2,
            charSextet_sextetChar _ h3]
      omega
  | case4 a b c rest ih =>
      intro h
      have ha : a < 256 := h a (by simp)
      have hb : b < 256 := h b (by simp)
      have hc : c < 256 := h c (by simp)
      have hrest : ∀ x ∈ rest, x < 256 := by
        intro x hx
        exact h x (by simp [hx])
      have h1 : a / 4 < 64 := by omega
      have h2 : a % 4 * 16 + b / 16 < 64 := by omega
      have h3 : b % 16 * 4 + c / 64 < 64 := by omega
      have h4 : c % 64 < 64 := by omega
      simp [b64encode, b64decode, sextetChar_ne_pad _ h3, sextetChar_ne_pad _ h4,
            charSextet_sextetChar _ h1, charSextet_sextetChar _ h2,
            charSextet_sextetChar _ h3, charSextet_sextetChar _ h4, ih hrest]
      omega

/-! ### Helper lemmas: adapters and orchestrator -/

/-- Every likelihood name is in the fixed ordinal set. -/
theorem likelihood_name_mem (l : Likelihood) : l.name ∈ likelihoodNames := by
  cases l <;> simp [Likelihood.name, likelihoodNames]

/-- The feature-detection adapter issues exactly one backend call and no
other backend call, for every outcome. -/
theorem vision_trace_counts (be : Except String VisionRaw) :
    countVisionCalls (analyze_with_vision be).2 = 1 ∧
    countOpenaiCalls (analyze_with_vision be).2 = 0 ∧
    countSynthCalls (analyze_with_vision be).2 = 0 := by
  cases be <;>
    simp [analyze_with_vision, countVisionCalls, countOpenaiCalls,
          countSynthCalls, Event.isVisionCall, Event.isOpenaiCall,
          Event.isSynthCall]

/-- The multimodal adapter issues exactly one backend call and no other
backend call, for every outcome. -/
theorem openai_trace_counts (b64 : String) (be : Except String OpenAIResponse) :
    countOpenaiCalls (analyze_with_openai b64 be).2 = 1 ∧
    countVisionCalls (analyze_with_openai b64 be).2 = 0 ∧
    countSynthCalls (analyze_with_openai b64 be).2 = 0 := by
  rcases be with e | ⟨_ | ⟨c, cs⟩⟩ <;>
    simp [analyze_with_openai, countVisionCalls, countOpenaiCalls,
          countSynthCalls, Event.isVisionCall, Event.isOpenaiCall,
          Event.isSynthCall]

/-- The synthesis adapter issues exactly one backend call and no stage-1
call, for every outcome. -/
theorem gen_trace_counts (v : Option VisionResults) (d : Option String)
    (be : Except String OpenAIResponse) :
    countSynthCalls (generate_prompt v d be).2 = 1 ∧
    countVisionCalls (generate_prompt v d be).2 = 0 ∧
    countOpenaiCalls (generate_prompt v d be).2 = 0 := by
  rcases be with e | ⟨_ | ⟨c, cs⟩⟩ <;>
    simp [generate_prompt, countVisionCalls, countOpenaiCalls,
          countSynthCalls, Event.isVisionCall, Event.isOpenaiCall,
          Event.isSynthCall]

/-- The events after synthesis contain no backend call. -/
theorem promptTail_counts (o : Option String) :
    countVisionCalls (promptTailEvents o) = 0 ∧
    countOpenaiCalls (promptTailEvents o) = 0 ∧
    countSynthCalls (promptTailEvents o) = 0 := by
  rcases o with _ | p
  · exact ⟨rfl, rfl, rfl⟩
  · cases hp : (p == "") <;>
      simp [promptTailEvents, hp, countVisionCalls, countOpenaiCalls,
            countSynthCalls, Event.isVisionCall, Event.isOpenaiCall,
            Event.isSynthCall]

/-- When the Vision client exists, the trace of a run splits into the two
stage-1 adapter traces followed by a remainder with no further stage-1 call,
with both displayed outcomes and at most one synthesis call in the
remainder; the recorded results are exactly the adapter outputs. -/
theorem mainRun_trace_shape (env : Env) (h : env.vision_client = true) :
    ∃ post,
      (mainRun env).trace =
        ((analyze_with_vision env.visionBackend).2 ++
         (analyze_with_openai (encode_image env.imageBytes) env.openaiBackend).2) ++
          post ∧
      countVisionCalls post = 0 ∧
      countOpenaiCalls post = 0 ∧
      countSynthCalls post ≤ 1 ∧
      Event.jsonShown (analyze_with_vision env.visionBackend).1 ∈ post ∧
      Event.textShown
        (analyze_with_openai (encode_image env.imageBytes) env.openaiBackend).1
        ∈ post ∧
      (mainRun env).vision_results = (analyze_with_vision env.visionBackend).1 ∧
      (mainRun env).openai_description =
        (analyze_with_openai (encode_image env.imageBytes) env.openaiBackend).1 := by
  obtain ⟨vc, vb, ob, sb, ib⟩ := env
  simp only at h
  subst h
  simp only [mainRun, if_true]
  cases hcond : (pyTruthyResults (analyze_with_vision vb).1 &&
      pyTruthyStr (analyze_with_openai (encode_image ib) ob).1)
  · refine ⟨[Event.jsonShown (analyze_with_vision vb).1,
             Event.textShown (analyze_with_openai (encode_image ib) ob).1],
            ?_, ?_, ?_, ?_, ?_, ?_, rfl, rfl⟩ <;>
      simp [List.append_assoc, countVisionCalls, countOpenaiCalls,
            countSynthCalls, Event.isVisionCall, Event.isOpenaiCall,
            Event.isSynthCall]
  · refine ⟨[Event.jsonShown (analyze_with_vision vb).1,
             Event.textShown (analyze_with_openai (encode_image ib) ob).1] ++
             [Event.sleep 1] ++
             (generate_prompt (analyze_with_vision vb).1
               (analyze_with_openai (encode_image ib) ob).1 sb).2 ++
             promptTailEvents (generate_prompt (analyze_with_vision vb).1
               (analyze_with_openai (encode_image ib) ob).1 sb).1,
            ?_, ?_, ?_, ?_, ?_, ?_, rfl, rfl⟩
    · simp [List.append_assoc]
    · have hg := (gen_trace_counts (analyze_with_vision vb).1
        (analyze_with_openai (encode_image ib) ob).1 sb).2.1
      have ht := (promptTail_counts (generate_prompt (analyze_with_vision vb).1
        (analyze_with_openai (encode_image ib) ob).1 sb).1).1
      unfold countVisionCalls at hg ht ⊢
      simp only [List.countP_append]
      rw [hg, ht]
      rfl
    · have hg := (gen_trace_counts (analyze_with_vision vb).1
        (analyze_with_openai (encode_image ib) ob).1 sb).2.2
      have ht := (promptTail_counts (generate_prompt (analyze_with_vision vb).1
        (analyze_with_openai (encode_image ib) ob).1 sb).1).2.1
      unfold countOpenaiCalls at hg ht ⊢
      simp only [List.countP_append]
      rw [hg, ht]
      rfl
    · have hg := (gen_trace_counts (analyze_with_vision vb).1
        (analyze_with_openai (encode_image ib) ob).1 sb).1
      have ht := (promptTail_counts (generate_prompt (analyze_with_vision vb).1
        (analyze_with_openai (encode_image ib) ob).1 sb).1).2.2
      unfold countSynthCalls at hg ht ⊢
      simp only [List.countP_append]
      rw [hg, ht]
      exact Nat.le_of_eq rfl
    · simp
    · simp

/-! ### Claim theorems -/

/-- C10 (confirmed): for every byte sequence, `encode_image` is the base64
text encoding of it — base64-decoding the output recovers exactly the
original bytes — and `encode_image` is deterministic and injective. -/
theorem C10_encode_image_roundtrip (b : List Nat) (h : ∀ x ∈ b, x < 256) :
    b64decode (encode_image b).data = some b ∧
    encode_image b = encode_image b ∧
    ∀ b2, (∀ x ∈ b2, x < 256) → encode_image b = encode_image b2 → b = b2 := by
  refine ⟨b64decode_b64encode b h, rfl, ?_⟩
  intro b2 h2 he
  have hd : b64encode b = b64encode b2 := congrArg String.data he
  have r1 := b64decode_b64encode b h
  have r2 := b64decode_b64encode b2 h2
  rw [hd, r2] at r1
  exact (Option.some.inj r1).symm

/-- Witness for C10 at the bytes 77, 97, 110. -/
theorem C10_witness :
    (∀ x ∈ [77, 97, 110], x < 256) ∧
    (b64decode (encode_image [77, 97, 110]).data = some [77, 97, 110] ∧
     encode_image [77, 97, 110] = encode_image [77, 97, 110] ∧
     ∀ b2, (∀ x ∈ b2, x < 256) →
       encode_image [77, 97, 110] = encode_image b2 → [77, 97, 110] = b2) :=
  ⟨by decide, C10_encode_image_roundtrip [77, 97, 110] (by decide)⟩

/-- C5 (confirmed): for every backend response the normalized text field has
at most one entry, is the image of the first-1 slice of the backend text
annotations, and when the backend returned any text annotations it is
exactly the first (full-text) block, every later sub-annotation discarded. -/
theorem C5_text_single_block (raw : VisionRaw) :
    (extractResults raw).text.length ≤ 1 ∧
    (extractResults raw).text =
      (raw.text_annotations.take 1).map (fun t => ⟨t.description, t.confidence⟩) ∧
    ∀ t0 rest, raw.text_annotations = t0 :: rest →
      (extractResults raw).text = [⟨t0.description, t0.confidence⟩] := by
  refine ⟨?_, rfl, ?_⟩
  · show ((raw.text_annotations.take 1).map _).length ≤ 1
    rw [List.length_map, List.length_take]
    omega
  · intro t0 rest hr
    show ((raw.text_annotations.take 1).map _) = _
    rw [hr]
    rfl

/-- Witness for C5 at a response with a full-text block and one per-word
sub-annotation. -/
theorem C5_witness :
    (extractResults c5Raw).text.length ≤ 1 ∧
    (extractResults c5Raw).text = [⟨"FULL TEXT", none⟩] :=
  ⟨(C5_text_single_block c5Raw).1,
   (C5_text_single_block c5Raw).2.2 ⟨"FULL TEXT", none⟩ [⟨"word", none⟩] rfl⟩

/-- C7 (confirmed): normalization and synthesis-input construction are pure
and deterministic — rebuilding from identical inputs yields identical
results; the adapter result on a successful response is exactly the
normalization of that response, and the bundle recorded in the synthesis
request is exactly `buildInputData` of the two optional inputs, for every
backend outcome. -/
theorem C7_normalizer_deterministic (raw : VisionRaw) (v : Option VisionResults)
    (d : Option String) (be : Except String VisionRaw)
    (sbe : Except String OpenAIResponse) :
    extractResults raw = extractResults raw ∧
    buildInputData v d = buildInputData v d ∧
    analyze_with_vision be = analyze_with_vision be ∧
    (analyze_with_vision (Except.ok raw)).1 = some (extractResults raw) ∧
    Event.synthCall (buildInputData v d) ∈ (generate_prompt v d sbe).2 := by
  refine ⟨rfl, rfl, rfl, rfl, ?_⟩
  rcases sbe with e | ⟨_ | ⟨c, cs⟩⟩ <;> simp [generate_prompt]

/-- C9 (confirmed): for every base64 image and backend outcome the
multimodal adapter issues exactly one request, carrying the data URL of the
base64 image, the fixed instruction, the fixed model and token cap of the
source, and on success returns the first choice content verbatim. -/
theorem C9_single_verbatim_request (base64_image : String)
    (be : Except String OpenAIResponse) :
    countOpenaiCalls (analyze_with_openai base64_image be).2 = 1 ∧
    Event.openaiCall (openaiRequestOf base64_image) ∈
      (analyze_with_openai base64_image be).2 ∧
    openaiRequestOf base64_image =
      ⟨"gpt-4-vision-preview", openaiInstructionText,
       "data:image/jpeg;base64," ++ base64_image, 500⟩ ∧
    ∀ resp c rest, be = Except.ok resp → resp.choices = c :: rest →
      (analyze_with_openai base64_image be).1 = some c := by
  refine ⟨(openai_trace_counts base64_image be).1, ?_, rfl, ?_⟩
  · rcases be with e | ⟨_ | ⟨c, cs⟩⟩ <;> simp [analyze_with_openai]
  · intro resp c rest hbe hch
    obtain ⟨cs⟩ := resp
    replace hch : cs = c :: rest := hch
    subst hch
    subst hbe
    rfl

/-- Witness for C9 at a successful one-choice response. -/
theorem C9_witness :
    (analyze_with_openai ("QUJD") (Except.ok ⟨["hello"]⟩)).1 = some ("hello") :=
  (C9_single_verbatim_request ("QUJD") (Except.ok ⟨["hello"]⟩)).2.2.2
    ⟨["hello"]⟩ ("hello") [] rfl rfl

/-- C4 (corrected) counterexample: for the backend response `c4Raw`, whose
dominant colors arrive in ascending score order, the normalized list is not
sorted by descending score — the code takes `colors[:5]` verbatim and never
sorts — so the claim as stated is false. -/
theorem C4_counterexample :
    ¬ ((extractResults c4Raw).colors.length ≤ 5 ∧
       sortedByScoreDesc (extractResults c4Raw).colors) := by
  intro h
  have h2 := h.2
  simp [extractResults, c4Raw, sortedByScoreDesc, List.chain'_cons] at h2
  norm_num at h2

/-- C4 (corrected) amended claim: for every backend response the normalized
dominant-color list has length at most 5 and is the first-5 prefix of the
backend list in the backend order; whenever the backend list is sorted by
descending score, so is the normalized list. -/
theorem C4_amended (raw : VisionRaw) :
    (extractResults raw).colors.length ≤ 5 ∧
    (extractResults raw).colors = (raw.dominant_colors.take 5).map
      (fun c => ⟨c.color, c.score, c.pixel_fraction⟩) ∧
    (rawSortedByScoreDesc raw.dominant_colors →
      sortedByScoreDesc (extractResults raw).colors) := by
  refine ⟨?_, rfl, ?_⟩
  · show ((raw.dominant_colors.take 5).map _).length ≤ 5
    rw [List.length_map, List.length_take]
    omega
  · intro h
    show List.Chain' _ ((raw.dominant_colors.take 5).map _)
    exact (List.chain'_map _).2 (h.take 5)

/-- Witness for C4: the unconditional clauses at the unsorted response
`c4Raw`, and the sortedness clause discharged at the sorted response
`c4SortedRaw`. -/
theorem C4_amended_witness :
    ((extractResults c4Raw).colors.length ≤ 5 ∧
     (extractResults c4Raw).colors =
       (c4Raw.dominant_colors.take 5).map
         (fun c => ⟨c.color, c.score, c.pixel_fraction⟩)) ∧
    rawSortedByScoreDesc c4SortedRaw.dominant_colors ∧
    sortedByScoreDesc (extractResults c4SortedRaw).colors := by
  have hs : rawSortedByScoreDesc c4SortedRaw.dominant_colors := by
    simp [rawSortedByScoreDesc, c4SortedRaw, List.chain'_cons]
  exact ⟨⟨(C4_amended c4Raw).1, (C4_amended c4Raw).2.1⟩, hs,
         (C4_amended c4SortedRaw).2.2 hs⟩

/-- C6 (corrected) counterexample: normalization copies backend values
verbatim, so the bundle built from `c6Raw`, whose label score is 2, violates
the bounds invariant — the claim that every normalized bundle satisfies it
is false. -/
theorem C6_counterexample : ¬ resultsBoundsOk (extractResults c6Raw) := by
  intro h
  have hl := h.1 ⟨"cat", 2⟩ (by simp [extractResults, c6Raw])
  simp [scoreOk] at hl

/-- C6 (corrected) amended claim: normalization preserves bounds rather than
enforcing them — whenever the raw backend values are within their declared
bounds, the normalized bundle satisfies the bounds invariant; the likelihood
names are always drawn from the fixed ordinal set. -/
theorem C6_amended (raw : VisionRaw) (h : rawBoundsOk raw) :
    resultsBoundsOk (extractResults raw) := by
  obtain ⟨h1, h2, h3⟩ := h
  refine ⟨?_, ?_, ?_, ?_⟩
  · intro l hl
    simp only [extractResults, List.mem_map] at hl
    obtain ⟨l0, hl0, rfl⟩ := hl
    exact h1 l0 hl0
  · intro t ht c hc
    simp only [extractResults, List.mem_map] at ht
    obtain ⟨t0, ht0, rfl⟩ := ht
    exact h2 t0 (List.take_subset 1 _ ht0) c hc
  · intro f hf
    simp only [extractResults, List.mem_map] at hf
    obtain ⟨f0, hf0, rfl⟩ := hf
    exact ⟨likelihood_name_mem _, likelihood_name_mem _,
           likelihood_name_mem _, likelihood_name_mem _⟩
  · intro c hc
    simp only [extractResults, List.mem_map] at hc
    obtain ⟨c0, hc0, rfl⟩ := hc
    exact h3 c0 (List.take_subset 5 _ hc0)

/-- Witness for C6 at an in-bounds response. -/
theorem C6_amended_witness :
    rawBoundsOk c6GoodRaw ∧ resultsBoundsOk (extractResults c6GoodRaw) := by
  have hg : rawBoundsOk c6GoodRaw := by
    refine ⟨?_, ?_, ?_⟩
    · intro l hl
      simp [c6GoodRaw] at hl
      subst hl
      norm_num [scoreOk]
    · intro t ht c hc
      simp [c6GoodRaw] at ht
      subst ht
      simp at hc
    · intro c hc
      simp [c6GoodRaw] at hc
      subst hc
      norm_num [scoreOk, channelOk]
  exact ⟨hg, C6_amended c6GoodRaw hg⟩

/-- C1 (corrected) counterexample: in the run `envC1` the feature detection
succeeds and the multimodal description fails, yet the synthesis backend is
never invoked — the orchestrator does not proceed to synthesis with one
constituent recorded missing, refuting the claim as stated. -/
theorem C1_counterexample :
    (mainRun envC1).vision_results.isSome = true ∧
    (mainRun envC1).openai_description = none ∧
    countSynthCalls (mainRun envC1).trace = 0 :=
  ⟨rfl, rfl, rfl⟩

/-- C1 (corrected) amended claim: when exactly one of the two stage-1
analyses succeeds (exactly one result present), the orchestrator skips
synthesis — zero synthesis calls and no prompt — while both outcomes, the
absent one included, are still displayed. -/
theorem C1_amended (env : Env)
    (hx : (mainRun env).vision_results.isSome ≠
      (mainRun env).openai_description.isSome) :
    countSynthCalls (mainRun env).trace = 0 ∧
    (mainRun env).detailed_prompt = none ∧
    Event.jsonShown (mainRun env).vision_results ∈ (mainRun env).trace ∧
    Event.textShown (mainRun env).openai_description ∈ (mainRun env).trace := by
  obtain ⟨vc, vb, ob, sb, ib⟩ := env
  cases vc
  · simp [mainRun] at hx
  · simp only [mainRun, if_true] at hx ⊢
    cases hcond : (pyTruthyResults (analyze_with_vision vb).1 &&
        pyTruthyStr (analyze_with_openai (encode_image ib) ob).1)
    · simp only [hcond, Bool.false_eq_true, if_false] at hx ⊢
      refine ⟨?_, by trivial, ?_, ?_⟩
      · have h1 := (vision_trace_counts vb).2.2
        have h2 := (openai_trace_counts (encode_image ib) ob).2.2
        unfold countSynthCalls at h1 h2 ⊢
        simp only [List.countP_append]
        rw [h1, h2]
        rfl
      · simp
      · simp
    · exfalso
      have hcond2 := hcond
      rw [Bool.and_eq_true] at hcond2
      obtain ⟨ha, hb⟩ := hcond2
      simp only [hcond, if_true] at hx
      cases hvr : (analyze_with_vision vb).1 with
      | none =>
          rw [hvr] at ha
          simp [pyTruthyResults] at ha
      | some r =>
          cases hod : (analyze_with_openai (encode_image ib) ob).1 with
          | none =>
              rw [hod] at hb
              simp [pyTruthyStr] at hb
          | some s =>
              rw [hvr, hod] at hx
              simp at hx

/-- Witness for C1 at the run `envC1`. -/
theorem C1_amended_witness :
    ((mainRun envC1).vision_results.isSome ≠
      (mainRun envC1).openai_description.isSome) ∧
    (countSynthCalls (mainRun envC1).trace = 0 ∧
     (mainRun envC1).detailed_prompt = none ∧
     Event.jsonShown (mainRun envC1).vision_results ∈ (mainRun envC1).trace ∧
     Event.textShown (mainRun envC1).openai_description ∈ (mainRun envC1).trace) :=
  ⟨by decide, C1_amended envC1 (by decide)⟩

/-- C2 (confirmed): in every run where both stage-1 results are absent, the
synthesis backend is never invoked (zero calls to `generate_prompt`), no
prompt is produced or rendered, and the run terminates with the failure
reported through at least one error message. -/
theorem C2_total_failure_no_synthesis (env : Env)
    (hv : (mainRun env).vision_results = none)
    (ho : (mainRun env).openai_description = none) :
    countSynthCalls (mainRun env).trace = 0 ∧
    (mainRun env).detailed_prompt = none ∧
    (∃ m, Event.errorShown m ∈ (mainRun env).trace) ∧
    ∀ s, Event.markdownShown s ∉ (mainRun env).trace := by
  obtain ⟨vc, vb, ob, sb, ib⟩ := env
  cases vc
  · exact ⟨rfl, rfl, ⟨clientErrorMsg, by simp [mainRun]⟩,
      by intro s; simp [mainRun]⟩
  · rcases vb with e | raw
    · rcases ob with e2 | ⟨_ | ⟨c, cs⟩⟩
      · refine ⟨rfl, rfl, ⟨visionErrorMsg e, ?_⟩, ?_⟩
        · simp [mainRun, analyze_with_vision, analyze_with_openai,
                pyTruthyResults]
        · intro s
          simp [mainRun, analyze_with_vision, analyze_with_openai,
                pyTruthyResults]
      · refine ⟨rfl, rfl, ⟨visionErrorMsg e, ?_⟩, ?_⟩
        · simp [mainRun, analyze_with_vision, analyze_with_openai,
                pyTruthyResults]
        · intro s
          simp [mainRun, analyze_with_vision, analyze_with_openai,
                pyTruthyResults]
      · exfalso
        simp [mainRun, analyze_with_vision, analyze_with_openai,
              pyTruthyResults] at ho
    · exfalso
      rcases ob with e2 | ⟨_ | ⟨c, cs⟩⟩
      · simp [mainRun, analyze_with_vision, analyze_with_openai,
              pyTruthyResults, pyTruthyStr] at hv
      · simp [mainRun, analyze_with_vision, analyze_with_openai,
              pyTruthyResults, pyTruthyStr] at hv
      · cases hc : (c == "") <;>
          simp [mainRun, analyze_with_vision, analyze_with_openai,
                pyTruthyResults, pyTruthyStr, hc] at hv

/-- Witness for C2 at the run `envC2w` in which both backends fail. -/
theorem C2_witness :
    ((mainRun envC2w).vision_results = none) ∧
    ((mainRun envC2w).openai_description = none) ∧
    (countSynthCalls (mainRun envC2w).trace = 0 ∧
     (mainRun envC2w).detailed_prompt = none ∧
     (∃ m, Event.errorShown m ∈ (mainRun envC2w).trace) ∧
     ∀ s, Event.markdownShown s ∉ (mainRun envC2w).trace) :=
  ⟨rfl, rfl, C2_total_failure_no_synthesis envC2w rfl rfl⟩

/-- C3 (corrected) counterexample: in the run `envC3` the Vision client
failed to construct and the orchestrator issues neither stage-1 call — in
particular the multimodal description call is skipped because of the other
adapter client state — refuting the claim that both stage-1 calls are
issued in every run. -/
theorem C3_counterexample :
    countOpenaiCalls (mainRun envC3).trace = 0 ∧
    countVisionCalls (mainRun envC3).trace = 0 :=
  ⟨rfl, rfl⟩

/-- C3 (corrected) amended claim: when the Vision client exists, each
stage-1 call is issued exactly once and both settle before any synthesis
call, and neither outcome is dropped — the recorded results are exactly the
adapter outputs and both are displayed. -/
theorem C3_amended (env : Env) (h : env.vision_client = true) :
    ∃ pre post,
      (mainRun env).trace = pre ++ post ∧
      countVisionCalls pre = 1 ∧
      countOpenaiCalls pre = 1 ∧
      countSynthCalls pre = 0 ∧
      countVisionCalls post = 0 ∧
      countOpenaiCalls post = 0 ∧
      (mainRun env).vision_results = (analyze_with_vision env.visionBackend).1 ∧
      (mainRun env).openai_description =
        (analyze_with_openai (encode_image env.imageBytes) env.openaiBackend).1 ∧
      Event.jsonShown (mainRun env).vision_results ∈ (mainRun env).trace ∧
      Event.textShown (mainRun env).openai_description ∈ (mainRun env).trace := by
  obtain ⟨post, htr, hpv, hpo, hps, hjs, hts, hvr, hod⟩ := mainRun_trace_shape env h
  refine ⟨_, post, htr, ?_, ?_, ?_, hpv, hpo, hvr, hod, ?_, ?_⟩
  · have h1 := (vision_trace_counts env.visionBackend).1
    have h2 := (openai_trace_counts (encode_image env.imageBytes)
      env.openaiBackend).2.1
    unfold countVisionCalls at h1 h2 ⊢
    rw [List.countP_append, h1, h2]
  · have h1 := (vision_trace_counts env.visionBackend).2.1
    have h2 := (openai_trace_counts (encode_image env.imageBytes)
      env.openaiBackend).1
    unfold countOpenaiCalls at h1 h2 ⊢
    rw [List.countP_append, h1, h2]
  · have h1 := (vision_trace_counts env.visionBackend).2.2
    have h2 := (openai_trace_counts (encode_image env.imageBytes)
      env.openaiBackend).2.2
    unfold countSynthCalls at h1 h2 ⊢
    rw [List.countP_append, h1, h2]
  · rw [htr, hvr]
    exact List.mem_append_right _ hjs
  · rw [htr, hod]
    exact List.mem_append_right _ hts

/-- Witness for C3 at a fully successful run. -/
theorem C3_amended_witness :
    (envC3w.vision_client = true) ∧
    ∃ pre post,
      (mainRun envC3w).trace = pre ++ post ∧
      countVisionCalls pre = 1 ∧
      countOpenaiCalls pre = 1 ∧
      countSynthCalls pre = 0 ∧
      countVisionCalls post = 0 ∧
      countOpenaiCalls post = 0 ∧
      (mainRun envC3w).vision_results =
        (analyze_with_vision envC3w.visionBackend).1 ∧
      (mainRun envC3w).openai_description =
        (analyze_with_openai (encode_image envC3w.imageBytes)
          envC3w.openaiBackend).1 ∧
      Event.jsonShown (mainRun envC3w).vision_results ∈ (mainRun envC3w).trace ∧
      Event.textShown (mainRun envC3w).openai_description ∈
        (mainRun envC3w).trace :=
  ⟨rfl, C3_amended envC3w rfl⟩

/-- C8 (confirmed): backend exceptions never propagate past an adapter — the
adapter returns an absent result after showing the error message — each
stage-1 backend is called exactly once (no retry), synthesis is attempted at
most once, and the run still reaches its terminal display steps. -/
theorem C8_exceptions_captured (env : Env) (h : env.vision_client = true) :
    (∀ e, env.visionBackend = Except.error e →
      analyze_with_vision env.visionBackend =
        (none, [Event.visionCall, Event.errorShown (visionErrorMsg e)])) ∧
    (∀ e, env.openaiBackend = Except.error e →
      analyze_with_openai (encode_image env.imageBytes) env.openaiBackend =
        (none, [Event.openaiCall (openaiRequestOf (encode_image env.imageBytes)),
                Event.errorShown (openaiErrorMsg e)])) ∧
    countVisionCalls (mainRun env).trace = 1 ∧
    countOpenaiCalls (mainRun env).trace = 1 ∧
    countSynthCalls (mainRun env).trace ≤ 1 ∧
    Event.jsonShown (mainRun env).vision_results ∈ (mainRun env).trace ∧
    Event.textShown (mainRun env).openai_description ∈ (mainRun env).trace := by
  obtain ⟨post, htr, hpv, hpo, hps, hjs, hts, hvr, hod⟩ := mainRun_trace_shape env h
  refine ⟨?_, ?_, ?_, ?_, ?_, ?_, ?_⟩
  · intro e he
    rw [he]
    rfl
  · intro e he
    rw [he]
    rfl
  · rw [htr]
    have h1 := (vision_trace_counts env.visionBackend).1
    have h2 := (openai_trace_counts (encode_image env.imageBytes)
      env.openaiBackend).2.1
    unfold countVisionCalls at h1 h2 hpv ⊢
    rw [List.countP_append, List.countP_append, h1, h2, hpv]
  · rw [htr]
    have h1 := (vision_trace_counts env.visionBackend).2.1
    have h2 := (openai_trace_counts (encode_image env.imageBytes)
      env.openaiBackend).1
    unfold countOpenaiCalls at h1 h2 hpo ⊢
    rw [List.countP_append, List.countP_append, h1, h2, hpo]
  · rw [htr]
    have h1 := (vision_trace_counts env.visionBackend).2.2
    have h2 := (openai_trace_counts (encode_image env.imageBytes)
      env.openaiBackend).2.2
    unfold countSynthCalls at h1 h2 hps ⊢
    rw [List.countP_append, List.countP_append, h1, h2]
    omega
  · rw [htr, hvr]
    exact List.mem_append_right _ hjs
  · rw [htr, hod]
    exact List.mem_append_right _ hts

/-- Witness for C8 at the run `envC8w` in which both stage-1 backends raise
exceptions. -/
theorem C8_witness :
    (∀ e, envC8w.visionBackend = Except.error e →
      analyze_with_vision envC8w.visionBackend =
        (none, [Event.visionCall, Event.errorShown (visionErrorMsg e)])) ∧
    (∀ e, envC8w.openaiBackend = Except.error e →
      analyze_with_openai (encode_image envC8w.imageBytes) envC8w.openaiBackend =
        (none,
         [Event.openaiCall (openaiRequestOf (encode_image envC8w.imageBytes)),
          Event.errorShown (openaiErrorMsg e)])) ∧
    countVisionCalls (mainRun envC8w).trace = 1 ∧
    countOpenaiCalls (mainRun envC8w).trace = 1 ∧
    countSynthCalls (mainRun envC8w).trace ≤ 1 ∧
    Event.jsonShown (mainRun envC8w).vision_results ∈ (mainRun envC8w).trace ∧
    Event.textShown (mainRun envC8w).openai_description ∈ (mainRun envC8w).trace :=
  C8_exceptions_captured envC8w rfl

end ImageAnalysis
